import Mathlib

/-!
# Verification of the portfolio viewer core

Shallow embedding of the content-discovery / routing / rendering-state /
image-prefetch subsystem of the portfolio single-page application
(`src/app.ts`, primary variant with `ImagePrefetcher`, plus
`generateTitleFromFileName` from the compiled GitHub-Pages variant).

Modelling conventions:
* `portfolioData` (a JS object used as an insertion-ordered map) is a
  `List Category`; `Object.values` order is list order.
* Browser ambience (`window.location.hash`, `sessionStorage.redirect`,
  the history stack) is passed explicitly.
* Each image request is modelled by its outcome (`loads : String → Bool`)
  and the `onload` / `onerror` handlers become a pure settlement step.
* `Math.round((loaded/total)*100)` is modelled as exact rational
  round-half-up on naturals (`jsRound`); at every concrete value used in
  this development the binary floating-point computation of the source is
  exact, so the two agree.
-/

namespace Portfolio

/-- Artwork record (`interface Artwork` in `portfolio-data`). -/
structure Artwork where
  id : String
  title : String
  year : Option String := none
  image : String
  deriving DecidableEq

/-- Category record (`interface Category` in `portfolio-data`). -/
structure Category where
  name : String
  displayName : String
  artworks : List Artwork
  deriving DecidableEq

/-- `portfolioData : Record<string, Category>` in insertion order. -/
abbrev Store := List Category

/-- `portfolioData[name]` lookup; `undefined` becomes `none`. -/
def lookup (store : Store) (name : String) : Option Category :=
  store.find? (fun c => c.name == name)

/-! ## ImagePrefetcher -/

/-- Mutable fields of `class ImagePrefetcher`.  `prefetchPromises` is not
needed once settlement is modelled by outcome, so it is omitted;
`prefetchedImages` is the JS `Set` in insertion order. -/
structure PrefetcherState where
  prefetchedImages : List String
  loadedImages : Nat
  totalImages : Nat
  deriving DecidableEq

/-- `calculateTotalImages`: sums `artworks.length` over all categories
(duplicated image paths are counted once per occurrence). -/
def calculateTotalImages (store : Store) : Nat :=
  (store.map (fun c => c.artworks.length)).sum

/-- The constructor of `ImagePrefetcher`. -/
def initPrefetcher (store : Store) : PrefetcherState :=
  { prefetchedImages := [], loadedImages := 0, totalImages := calculateTotalImages store }

/-- The image paths enumerated by `prefetchAllImages`, in iteration order:
`portfolio/` prefixed onto `artwork.image` for every artwork of every
category. -/
def allImagePaths (store : Store) : List String :=
  (store.map (fun c => c.artworks.map (fun a => "portfolio/" ++ a.image))).flatten

/-- The synchronous request-issuing loop of `prefetchAllImages` /
`prefetchImage`: a request is issued for a path only if no request for the
same path is already pending (`prefetchPromises.has`); `pending` collects
the paths already issued.  (During the synchronous loop no load event can
fire, so `prefetchedImages` stays empty and only the pending map
de-duplicates.) -/
def issueLoop : List String → List String → List String
  | [], _ => []
  | p :: ps, pending =>
    if p ∈ pending then issueLoop ps pending
    else p :: issueLoop ps (p :: pending)

/-- The list of image requests actually issued by `prefetchAllImages`. -/
def issuedRequests (paths : List String) : List String :=
  issueLoop paths []

/-- Outcome of a JS promise. -/
inductive Settlement where
  | resolved
  | rejected
  deriving DecidableEq

/-- The `img.onload` / `img.onerror` handlers installed by
`prefetchImage`: on load the path is added to the prefetched set and
`loadedImages` is incremented, and the promise resolves; on error the
promise also resolves (the source comment: do not reject, just continue
with other images). -/
def settleImage (st : PrefetcherState) (imagePath : String) (loads : Bool) :
    PrefetcherState × Settlement :=
  if loads then
    ({ st with prefetchedImages := st.prefetchedImages ++ [imagePath],
               loadedImages := st.loadedImages + 1 }, .resolved)
  else
    (st, .resolved)

/-- State after every issued request has settled, given each path's load
outcome. -/
def settleAll (st : PrefetcherState) (requests : List String) (loads : String → Bool) :
    PrefetcherState :=
  requests.foldl (fun s p => (settleImage s p (loads p)).1) st

/-- `Promise.all`: rejects as soon as some constituent rejects, resolves
once all constituents have resolved. -/
def promiseAll (ss : List Settlement) : Settlement :=
  if Settlement.rejected ∈ ss then Settlement.rejected else Settlement.resolved

/-- The prefetcher state after `prefetchAllImages()` has fully settled. -/
def prefetchAllSettle (store : Store) (loads : String → Bool) : PrefetcherState :=
  settleAll (initPrefetcher store) (issuedRequests (allImagePaths store)) loads

/-- Round-half-up of the non-negative rational `num / den`, the exact
value of `Math.round` on that quotient. -/
def jsRound (num den : Nat) : Nat :=
  (2 * num + den) / (2 * den)

/-- Return type of `getProgress`. -/
structure Progress where
  loaded : Nat
  total : Nat
  percentage : Nat
  deriving DecidableEq

/-- `getProgress`: percentage is computed only when the total is positive,
otherwise it is 0. -/
def getProgress (st : PrefetcherState) : Progress :=
  { loaded := st.loadedImages
    total := st.totalImages
    percentage :=
      if st.totalImages > 0 then jsRound (100 * st.loadedImages) st.totalImages else 0 }


/-! ### Concrete inputs for the prefetch claims -/

/-- A single artwork whose image path will be unreachable. -/
def cexArtwork : Artwork :=
  { id := "x", title := "X", image := "art/x.png" }

/-- A store with exactly one category holding `cexArtwork`: total K = 1. -/
def cexStore : Store :=
  [{ name := "art", displayName := "Art", artworks := [cexArtwork] }]

/-- Outcome in which no image request succeeds (all paths unreachable). -/
def noLoads : String → Bool := fun _ => false

/-! ## Navigation and rendering -/

/-- A sidebar navigation link produced by `generateNavigation`
(an anchor with a `data-category` attribute and a visible label). -/
structure NavLink where
  dataCategory : String
  label : String
  deriving DecidableEq

/-- A node of the home-view navigation menu string built by
`generateHomeNavigation`: the artist-name header div followed by one
anchor per listed category. -/
inductive HomeNavNode where
  | nameHeader
  | link (dataCategory : String) (label : String)
  deriving DecidableEq

/-- `generateNavigation` (primary variant): one link per stored category,
in store order, except that a category named `about` is skipped. -/
def generateNavigation (store : Store) : List NavLink :=
  (store.filter (fun c => c.name != "about")).map (fun c => ⟨c.name, c.displayName⟩)

/-- `generateHomeNavigation` (primary variant): the artist-name header,
then one link per stored category in store order, except that a category
named `about` is skipped; no other entry is appended. -/
def generateHomeNavigation (store : Store) : List HomeNavNode :=
  HomeNavNode.nameHeader ::
    (store.filter (fun c => c.name != "about")).map (fun c => .link c.name c.displayName)

/-- The `data-category` names carried by a home-navigation menu. -/
def homeNavCategories : List HomeNavNode → List String
  | [] => []
  | HomeNavNode.nameHeader :: rest => homeNavCategories rest
  | HomeNavNode.link n _ :: rest => n :: homeNavCategories rest

/-- A child node of the `#artwork-grid` element. -/
inductive GridNode where
  /-- The single centered paragraph written when the artwork list is
  empty (the no-artwork-available message). -/
  | emptyPlaceholder
  /-- An `artwork-item` div: image path, title, and the year div that is
  appended only when `year` is present. -/
  | artworkItem (imageSrc : String) (title : String) (year : Option String)
  /-- The home-page markup written by `loadHomePage`, carrying the
  home-navigation menu. -/
  | homeView (nav : List HomeNavNode)
  deriving DecidableEq

/-- `createArtworkElement` reduced to the data it renders. -/
def createArtworkElement (a : Artwork) : GridNode :=
  .artworkItem ("portfolio/" ++ a.image) a.title a.year

/-- `loadArtworkGrid`: clears the grid, then either writes the single
placeholder paragraph (empty list) or one artwork element per artwork. -/
def loadArtworkGrid (artworks : List Artwork) : List GridNode :=
  if artworks.length = 0 then [GridNode.emptyPlaceholder]
  else artworks.map createArtworkElement

def isPlaceholderNode : GridNode → Bool
  | GridNode.emptyPlaceholder => true
  | _ => false

def isArtworkNode : GridNode → Bool
  | GridNode.artworkItem _ _ _ => true
  | _ => false

/-! ## Application state and routing -/

/-- The rendering-relevant mutable state of `PortfolioApp`. -/
structure AppState where
  currentCategory : String
  pageTitle : String
  grid : List GridNode
  sidebarVisible : Bool
  deriving DecidableEq

/-- `loadHomePage`: hides the sidebar, resets the current category and
title, and writes the home-page markup into the grid. -/
def loadHomePage (store : Store) : AppState :=
  { currentCategory := ""
    pageTitle := ""
    grid := [GridNode.homeView (generateHomeNavigation store)]
    sidebarVisible := false }

/-- `portfolioData[categoryName].artworks = artworks`. -/
def updateArtworks (store : Store) (name : String) (artworks : List Artwork) : Store :=
  store.map (fun c => if c.name = name then { c with artworks := artworks } else c)

/-- `loadCategory` followed by `loadCategoryArtworks`.  `scan` stands for
the external `scanCategoryArtworks` of `portfolio-data`.  When the name is
not in the store the method logs and returns early, leaving every piece of
state untouched (and, being a total function here, raises nothing). -/
def loadCategory (scan : String → List Artwork) (store : Store) (st : AppState)
    (categoryName : String) : Store × AppState :=
  match lookup store categoryName with
  | none => (store, st)
  | some c =>
    let artworks := scan categoryName
    (updateArtworks store categoryName artworks,
      { currentCategory := categoryName
        pageTitle := c.displayName
        grid := loadArtworkGrid artworks
        sidebarVisible := true })

/-- Remove the first occurrence of the `#` character:
`String.replace` with a single-character pattern in JS replaces only the
first occurrence. -/
def replaceFirstHash : List Char → List Char
  | [] => []
  | c :: cs => if c = '#' then cs else c :: replaceFirstHash cs

/-- `getCategoryFromPath`: the `path` parameter is declared but never
read by the source; the target is derived from `window.location.hash`
(passed here explicitly as `locationHash`) with its first `#` removed.
The final branch mirrors the JS falsy-guard `hash || home`. -/
def getCategoryFromPath (path : String) (locationHash : String) : String :=
  let hash := String.mk (replaceFirstHash locationHash.toList)
  if hash = "" ∨ hash = "home" then "home"
  else if hash = "" then "home" else hash

/-- The navigation state of the router. -/
inductive Route where
  | home
  | category (name : String)
  deriving DecidableEq

/-- The dispatch performed on a target name by `navigateToPage`:
`home` goes to the home view, every other name to a category view. -/
def routeOf (target : String) : Route :=
  if target = "home" then Route.home else Route.category target

/-- `navigateToPage`: when `pushToHistory` is set, a new history entry
(`#` for home, `#name` otherwise) is appended; then the target dispatches
to `loadHomePage` or `loadCategory`.  Returns the history stack, the
store, and the rendering state. -/
def navigateToPage (scan : String → List Artwork) (store : Store)
    (history : List String) (st : AppState) (category : String)
    (pushToHistory : Bool) : List String × Store × AppState :=
  let history' :=
    if pushToHistory then
      history ++ [if category = "home" then "#" else "#" ++ category]
    else history
  if category = "home" then
    (history', store, loadHomePage store)
  else
    let s := loadCategory scan store st category
    (history', s.1, s.2)

/-- `handleRouteChange`, the shared `popstate` / `hashchange` handler:
derives the target from the current hash and navigates with
`pushToHistory = false`. -/
def handleRouteChange (scan : String → List Artwork) (store : Store)
    (history : List String) (st : AppState) (locationHash : String) :
    List String × Store × AppState :=
  navigateToPage scan store history st (getCategoryFromPath "" locationHash) false

/-- `handleInitialRoute`: if `sessionStorage.redirect` is truthy it is
removed and passed to `getCategoryFromPath`; otherwise the target comes
from the hash alone.  Returns the remaining stash alongside the
navigation result; neither branch pushes a history entry. -/
def handleInitialRoute (scan : String → List Artwork) (store : Store)
    (history : List String) (st : AppState)
    (sessionRedirect : Option String) (locationHash : String) :
    Option String × (List String × Store × AppState) :=
  match sessionRedirect with
  | some redirectPath =>
    if redirectPath = "" then
      (sessionRedirect, navigateToPage scan store history st
        (getCategoryFromPath "" locationHash) false)
    else
      (none, navigateToPage scan store history st
        (getCategoryFromPath redirectPath locationHash) false)
  | none =>
    (none, navigateToPage scan store history st
      (getCategoryFromPath "" locationHash) false)

/-! ## Filename-to-title (`generateTitleFromFileName`) -/

/-- `fileName.replace` of the extension regex (a final dot followed by
one or more characters none of which is a dot or a slash) with the empty
string. -/
def stripExtension (fileName : String) : String :=
  let rev := fileName.toList.reverse
  let ext := rev.takeWhile (fun c => c != '.' && c != '/')
  match rev.drop ext.length with
  | '.' :: before => if ext.isEmpty then fileName else String.mk before.reverse
  | _ => fileName

/-- `split` on the hyphen-or-underscore character class; JS keeps empty
segments and maps the empty string to a singleton empty segment. -/
def splitWords : List Char → List (List Char)
  | [] => [[]]
  | c :: cs =>
    if c = '-' ∨ c = '_' then [] :: splitWords cs
    else
      match splitWords cs with
      | [] => [[c]]
      | w :: ws => (c :: w) :: ws

/-- `word.charAt(0).toUpperCase() + word.slice(1).toLowerCase()` (the
inputs in this development are ASCII, where `Char.toUpper` and the JS
conversion agree). -/
def capitalizeWord : List Char → List Char
  | [] => []
  | c :: cs => c.toUpper :: cs.map Char.toLower

/-- `generateTitleFromFileName`: strip the extension, split on hyphen and
underscore, capitalize each word, rejoin with spaces. -/
def generateTitleFromFileName (fileName : String) : String :=
  String.intercalate " "
    ((splitWords (stripExtension fileName).toList).map (fun w => String.mk (capitalizeWord w)))

/-! ## Concrete inputs for the routing and rendering claims -/

/-- A `scanCategoryArtworks` stand-in that finds no files. -/
def scanNone : String → List Artwork := fun _ => []

def garmentsCategory : Category := ⟨"garments", "Garments", []⟩

def aboutCategory : Category := ⟨"about", "About", []⟩

/-- A store holding only the `garments` category. -/
def storeG : Store := [garmentsCategory]

/-- A store holding `garments` and the reserved `about` name. -/
def storeWithAbout : Store := [garmentsCategory, aboutCategory]

/-- A rendering state currently displaying the `garments` category. -/
def stShowingGarments : AppState := ⟨"garments", "Garments", [GridNode.emptyPlaceholder], true⟩

/-! ### Prefetcher lemmas -/

lemma mem_issueLoop {q : String} :
    ∀ (ps pending : List String), q ∈ issueLoop ps pending ↔ q ∈ ps ∧ q ∉ pending := by
  intro ps
  induction ps with
  | nil => intro pending; simp [issueLoop]
  | cons p ps ih =>
    intro pending
    by_cases hp : p ∈ pending
    · rw [issueLoop, if_pos hp, ih]
      constructor
      · rintro ⟨hq, hnp⟩
        exact ⟨List.mem_cons_of_mem _ hq, hnp⟩
      · rintro ⟨hq, hnp⟩
        rcases List.mem_cons.mp hq with rfl | hq
        · exact absurd hp hnp
        · exact ⟨hq, hnp⟩
    · rw [issueLoop, if_neg hp]
      simp only [List.mem_cons, ih]
      by_cases hqp : q = p
      · subst hqp; tauto
      · tauto

lemma nodup_issueLoop : ∀ (ps pending : List String), (issueLoop ps pending).Nodup := by
  intro ps
  induction ps with
  | nil => intro pending; simp [issueLoop]
  | cons p ps ih =>
    intro pending
    by_cases hp : p ∈ pending
    · rw [issueLoop, if_pos hp]; exact ih pending
    · rw [issueLoop, if_neg hp]
      refine List.nodup_cons.mpr ⟨fun hmem => ?_, ih _⟩
      exact ((mem_issueLoop _ _).mp hmem).2 (List.mem_cons_self _ _)

lemma settleAll_loadedImages (loads : String → Bool) :
    ∀ (requests : List String) (st : PrefetcherState),
      (settleAll st requests loads).loadedImages
        = st.loadedImages + (requests.filter loads).length := by
  intro requests
  induction requests with
  | nil => intro st; simp [settleAll]
  | cons p ps ih =>
    intro st
    by_cases hl : loads p
    · simp only [settleAll, List.foldl_cons] at *
      rw [ih, List.filter_cons, if_pos hl]
      simp [settleImage, hl, Nat.add_comm, Nat.add_assoc, Nat.add_left_comm]
    · simp only [settleAll, List.foldl_cons] at *
      rw [ih, List.filter_cons, if_neg hl]
      simp [settleImage, hl]

lemma settleAll_totalImages (loads : String → Bool) :
    ∀ (requests : List String) (st : PrefetcherState),
      (settleAll st requests loads).totalImages = st.totalImages := by
  intro requests
  induction requests with
  | nil => intro st; simp [settleAll]
  | cons p ps ih =>
    intro st
    simp only [settleAll, List.foldl_cons] at *
    rw [ih]
    by_cases hl : loads p <;> simp [settleImage, hl]

lemma settleImage_settlement (st : PrefetcherState) (p : String) (b : Bool) :
    (settleImage st p b).2 = Settlement.resolved := by
  by_cases hb : b <;> simp [settleImage, hb]

/-! ## Claim theorems: prefetcher -/

/-- **C10.** `getProgress` is total and never divides by zero: it returns
the `loaded` / `total` counters verbatim, the percentage is 0 whenever the
fixed total is 0, and the rounded quotient is computed only when the total
is positive. -/
theorem getProgress_total_safe (st : PrefetcherState) :
    (getProgress st).loaded = st.loadedImages
    ∧ (getProgress st).total = st.totalImages
    ∧ (st.totalImages = 0 → (getProgress st).percentage = 0)
    ∧ (0 < st.totalImages →
        (getProgress st).percentage = jsRound (100 * st.loadedImages) st.totalImages) := by
  refine ⟨rfl, rfl, fun h => ?_, fun h => ?_⟩
  · simp [getProgress, h]
  · simp only [getProgress]
    rw [if_pos h]

/-- Witness for C10 at a concrete state with total 0 and 5 recorded loads. -/
theorem getProgress_total_safe_witness :
    (getProgress ⟨[], 5, 0⟩).percentage = 0 :=
  (getProgress_total_safe ⟨[], 5, 0⟩).2.2.1 rfl

/-- **C5.** The request-issuing and settlement contract of
`prefetchAllImages`: the issued request list is duplicate-free and covers
exactly the enumerated paths (at most one request per distinct image
path); every per-image promise settles by resolving — `reject` is never
called — whether or not the image loads; `loadedImages` is incremented by
a settlement exactly when the image loaded; and the `Promise.all`
aggregate resolves for every outcome (completion regardless of individual
failures), with the final counter tallying exactly the successful
requests. -/
theorem prefetchAll_request_contract (paths : List String) (loads : String → Bool)
    (st : PrefetcherState) :
    (issuedRequests paths).Nodup
    ∧ (∀ p, p ∈ issuedRequests paths ↔ p ∈ paths)
    ∧ (∀ s p b, (settleImage s p b).2 = Settlement.resolved)
    ∧ (∀ s p, ((settleImage s p true).1.loadedImages = s.loadedImages + 1)
        ∧ (settleImage s p false).1.loadedImages = s.loadedImages)
    ∧ promiseAll ((issuedRequests paths).map (fun p => (settleImage st p (loads p)).2))
        = Settlement.resolved
    ∧ (settleAll st (issuedRequests paths) loads).loadedImages
        = st.loadedImages + ((issuedRequests paths).filter loads).length := by
  refine ⟨nodup_issueLoop paths [], ?_, settleImage_settlement, ?_, ?_, ?_⟩
  · intro p
    rw [issuedRequests, mem_issueLoop]
    simp
  · intro s p
    constructor <;> simp [settleImage]
  · rw [promiseAll, if_neg]
    intro hmem
    obtain ⟨p, -, hs⟩ := List.mem_map.mp hmem
    rw [settleImage_settlement] at hs
    exact Settlement.noConfusion hs
  · exact settleAll_loadedImages loads _ st


/-- **C1, counterexample.** With K = 1 artwork whose image path is
unreachable, every per-image request has settled after
`prefetchAllImages()`, yet `getProgress().percentage` is 0, not 100: the
percentage does depend on which images actually loaded. -/
theorem prefetch_failed_image_percentage_not_100 :
    0 < calculateTotalImages cexStore
    ∧ (getProgress (prefetchAllSettle cexStore noLoads)).percentage = 0
    ∧ (getProgress (prefetchAllSettle cexStore noLoads)).percentage ≠ 100 := by
  refine ⟨by decide, ?_, ?_⟩ <;> decide

/-- **C1, amended.** After `prefetchAll()` settles, `loadedImages` equals
the number of distinct image paths that actually loaded, and
`progress().percentage` equals the rounded value of
100 · loaded / total (0 when the total is 0) — so the percentage depends
on which images loaded and reaches 100 only when the successful distinct
paths account for the whole total. -/
theorem prefetch_progress_after_settle (store : Store) (loads : String → Bool) :
    (prefetchAllSettle store loads).loadedImages
      = ((issuedRequests (allImagePaths store)).filter loads).length
    ∧ (getProgress (prefetchAllSettle store loads)).percentage
      = if 0 < calculateTotalImages store
        then jsRound (100 * ((issuedRequests (allImagePaths store)).filter loads).length)
              (calculateTotalImages store)
        else 0 := by
  have hload : (prefetchAllSettle store loads).loadedImages
      = ((issuedRequests (allImagePaths store)).filter loads).length := by
    rw [prefetchAllSettle, settleAll_loadedImages]
    simp [initPrefetcher]
  have htot : (prefetchAllSettle store loads).totalImages = calculateTotalImages store := by
    rw [prefetchAllSettle, settleAll_totalImages]
    simp [initPrefetcher]
  refine ⟨hload, ?_⟩
  simp only [getProgress, hload, htot]

/-! ## Helper lemmas: routing and rendering -/

lemma string_mk_toList (s : String) : String.mk s.toList = s := rfl

lemma toList_hash_append (s : String) : ("#" ++ s).toList = '#' :: s.toList := by
  show ("#" ++ s).data = '#' :: s.data
  rw [String.data_append]
  rfl

lemma homeNavCategories_map (l : List Category) :
    homeNavCategories (l.map (fun c => HomeNavNode.link c.name c.displayName))
      = l.map Category.name := by
  induction l with
  | nil => rfl
  | cons c cs ih => simp [homeNavCategories, ih]

lemma filter_map_name (store : Store) :
    (store.filter (fun c => c.name != "about")).map Category.name
      = (store.map Category.name).filter (fun n => n != "about") := by
  induction store with
  | nil => rfl
  | cons c cs ih =>
    cases hb : c.name != "about" <;> simp [List.filter_cons, hb, ih]

lemma loadCategory_of_lookup_none (scan : String → List Artwork) (store : Store)
    (st : AppState) (t : String) (hmiss : lookup store t = none) :
    loadCategory scan store st t = (store, st) := by
  simp only [loadCategory, hmiss]

/-! ## Claim theorems: routing and rendering -/

/-- **C6.** Hash-mode target derivation: an absent hash, a bare `#`, or
`#home` all map to the Home state, and `#name` for any other non-empty
name maps to Category(name). -/
theorem hash_route_derivation (name : String) (h1 : name ≠ "") (h2 : name ≠ "home") :
    routeOf (getCategoryFromPath "" "") = Route.home
    ∧ routeOf (getCategoryFromPath "" "#") = Route.home
    ∧ routeOf (getCategoryFromPath "" "#home") = Route.home
    ∧ routeOf (getCategoryFromPath "" ("#" ++ name)) = Route.category name := by
  refine ⟨by decide, by decide, by decide, ?_⟩
  have hrw : replaceFirstHash (("#" ++ name).toList) = name.toList := by
    rw [toList_hash_append, replaceFirstHash, if_pos rfl]
  rw [getCategoryFromPath]
  simp only [hrw, string_mk_toList]
  rw [if_neg (by exact fun h => h.elim h1 h2), if_neg h1, routeOf, if_neg h2]

/-- Witness for C6 at the concrete name `garments`. -/
theorem hash_route_derivation_witness :
    "garments" ≠ "" ∧ "garments" ≠ "home"
    ∧ routeOf (getCategoryFromPath "" ("#" ++ "garments")) = Route.category "garments" :=
  ⟨by decide, by decide,
    (hash_route_derivation "garments" (by decide) (by decide)).2.2.2⟩

/-- **C2 (code evaluation at the failing input).** With `/garments`
stashed in session storage, `garments` present in the store, and an empty
address-bar hash, `handleInitialRoute` clears the stash but loads the
home page: `getCategoryFromPath` ignores its `path` argument, so the
stashed path never influences the derived target, contradicting the
documented fallback contract. -/
theorem handleInitialRoute_ignores_stashed_path :
    handleInitialRoute scanNone storeG [] stShowingGarments (some "/garments") ""
      = (none, ([], storeG, loadHomePage storeG))
    ∧ routeOf (getCategoryFromPath "/garments" "") = Route.home
    ∧ Route.home ≠ Route.category "garments" := by
  refine ⟨by decide, by decide, by decide⟩

/-- **C4.** For a navigation target that is not `home` and is absent from
the store, `loadCategory` is a defined no-op: it returns normally (it is
a total function — nothing propagates) and leaves the store and the whole
rendering state (current category, page title, artwork grid, sidebar)
unchanged. -/
theorem loadCategory_unknown_target_noop (scan : String → List Artwork) (store : Store)
    (st : AppState) (t : String) (hhome : t ≠ "home") (hmiss : lookup store t = none) :
    loadCategory scan store st t = (store, st) :=
  loadCategory_of_lookup_none scan store st t hmiss

/-- Witness for C4: the unknown target `bogus` against the
`garments`-only store. -/
theorem loadCategory_unknown_target_noop_witness :
    "bogus" ≠ "home"
    ∧ lookup storeG "bogus" = none
    ∧ loadCategory scanNone storeG stShowingGarments "bogus" = (storeG, stShowingGarments) :=
  ⟨by decide, by decide,
    loadCategory_unknown_target_noop scanNone storeG stShowingGarments "bogus"
      (by decide) (by decide)⟩

/-- **C7, counterexample.** A `hashchange` to `#bogus` while the
`garments` view is displayed: the handler derives the target `bogus` from
the hash, but the rendering state is left exactly as it was (still
showing `garments`) — the event does not re-render to the derived state.
(The history stack is indeed untouched.) -/
theorem routeChange_unknown_target_no_rerender :
    handleRouteChange scanNone storeG [] stShowingGarments "#bogus"
      = ([], storeG, stShowingGarments)
    ∧ getCategoryFromPath "" "#bogus" = "bogus"
    ∧ stShowingGarments.currentCategory ≠ "bogus" := by
  refine ⟨by decide, by decide, by decide⟩

/-- **C7, amended.** Every `popstate` / `hashchange` event re-derives the
target from the current address-bar hash and navigates with
`pushToHistory = false`, so the history stack is never extended; it
re-renders the home view when the target is `home` and re-renders through
`loadCategory` otherwise — which repaints for stored targets and leaves
the previous view in place for unknown ones. -/
theorem handleRouteChange_behavior (scan : String → List Artwork) (store : Store)
    (history : List String) (st : AppState) (locationHash : String) :
    (handleRouteChange scan store history st locationHash).1 = history
    ∧ handleRouteChange scan store history st locationHash
        = navigateToPage scan store history st (getCategoryFromPath "" locationHash) false
    ∧ (getCategoryFromPath "" locationHash = "home" →
        (handleRouteChange scan store history st locationHash).2.2 = loadHomePage store)
    ∧ (getCategoryFromPath "" locationHash ≠ "home" →
        (handleRouteChange scan store history st locationHash).2
          = loadCategory scan store st (getCategoryFromPath "" locationHash)) := by
  refine ⟨?_, rfl, ?_, ?_⟩
  · by_cases ht : getCategoryFromPath "" locationHash = "home" <;>
      simp [handleRouteChange, navigateToPage, ht]
  · intro ht; simp [handleRouteChange, navigateToPage, ht]
  · intro ht; simp [handleRouteChange, navigateToPage, ht]

/-- Witness for C7 (amended) at the hash `#garments` over the
`garments`-only store. -/
theorem handleRouteChange_behavior_witness :
    (handleRouteChange scanNone storeG [] stShowingGarments "#garments").2
      = loadCategory scanNone storeG stShowingGarments "garments" := by
  have h := (handleRouteChange_behavior scanNone storeG [] stShowingGarments "#garments").2.2.2
  exact h (by decide)

/-- **C3, counterexample.** When `about` is present in the store it is
*excluded* from the generated navigation, in both the sidebar list and
the home-view menu — it is not retained there. -/
theorem about_absent_from_navigation :
    "about" ∈ storeWithAbout.map Category.name
    ∧ "about" ∉ (generateNavigation storeWithAbout).map NavLink.dataCategory
    ∧ "about" ∉ homeNavCategories (generateHomeNavigation storeWithAbout) := by
  refine ⟨by decide, by decide, by decide⟩

/-- **C3, amended.** In every discovery outcome, a category named `about`
(when present in the store) is excluded from both the sidebar navigation
and the home-view navigation menu, while every other stored name
(including `home`, which is not filtered) is retained in store order; the
target `home` never reaches ordinary grid rendering — `navigateToPage`
always sends it to the home view. -/
theorem navigation_filters_about (store : Store) :
    (generateNavigation store).map NavLink.dataCategory
      = (store.map Category.name).filter (fun n => n != "about")
    ∧ homeNavCategories (generateHomeNavigation store)
      = (store.map Category.name).filter (fun n => n != "about")
    ∧ ∀ (scan : String → List Artwork) (history : List String) (st : AppState) (push : Bool),
        (navigateToPage scan store history st "home" push).2.2 = loadHomePage store := by
  refine ⟨?_, ?_, ?_⟩
  · rw [generateNavigation, List.map_map]
    exact filter_map_name store
  · rw [generateHomeNavigation, homeNavCategories, homeNavCategories_map]
    exact filter_map_name store
  · intro scan history st push
    simp [navigateToPage]

/-- **C9.** A length-0 artwork list renders exactly one placeholder node
and zero artwork nodes. -/
theorem empty_grid_placeholder (artworks : List Artwork) (h : artworks.length = 0) :
    loadArtworkGrid artworks = [GridNode.emptyPlaceholder]
    ∧ (loadArtworkGrid artworks).countP isPlaceholderNode = 1
    ∧ (loadArtworkGrid artworks).countP isArtworkNode = 0 := by
  have hg : loadArtworkGrid artworks = [GridNode.emptyPlaceholder] := by
    simp [loadArtworkGrid, h]
  rw [hg]
  refine ⟨rfl, by decide, by decide⟩

/-- Witness for C9 at the empty artwork list. -/
theorem empty_grid_placeholder_witness :
    loadArtworkGrid ([] : List Artwork) = [GridNode.emptyPlaceholder] :=
  (empty_grid_placeholder [] rfl).1

/-- **C8.** The filename-to-title mapping: it is, definitionally, the
composition strip-extension → split on hyphen/underscore → capitalize
first letter and lowercase the rest of each word → rejoin with spaces,
and it sends the two specified filenames to their specified titles. -/
theorem generateTitle_examples :
    generateTitleFromFileName "abstract-painting-2023.png" = "Abstract Painting 2023"
    ∧ generateTitleFromFileName "living-room.jpg" = "Living Room"
    ∧ ∀ fileName, generateTitleFromFileName fileName
        = String.intercalate " "
            ((splitWords (stripExtension fileName).toList).map
              (fun w => String.mk (capitalizeWord w))) :=
  ⟨by decide, by decide, fun _ => rfl⟩

end Portfolio
